import Mathlib

/-!
Verification development for the EcoAgent campus-analysis backend.

The definitions below are a shallow embedding of the Python sources
`backend/agents/room_agent.py`, `backend/agents/building_agent.py` and
`backend/agents/campus_graph.py`.  Numeric float arithmetic is modelled over
the rationals, Python `int(...)` truncation and `round(x, n)` (banker's
rounding, ties to even) are modelled explicitly, and code that can raise a
Python exception is modelled in the `Except` monad.  External LLM calls only
append to the `messages` transcript and never feed the numeric fields; the
transcript is therefore omitted from the state, and the possibility that an
LLM call raises is handled where error handling is analysed, by quantifying
over arbitrary failing pipelines.
-/

namespace EcoAgent

open scoped List

/-- Python exceptions relevant to this development. -/
inductive PyErr where
  | zeroDivision : PyErr
deriving DecidableEq, Repr

/-- Python `int(q)` for a rational: truncation toward zero. -/
def pyInt (q : ℚ) : ℤ := if 0 ≤ q then ⌊q⌋ else -⌊-q⌋

/-- Round a rational to the nearest integer with ties to even, the rounding
mode of Python's built-in `round`. -/
def roundHE (q : ℚ) : ℤ :=
  if q - ⌊q⌋ < 1/2 then ⌊q⌋
  else if 1/2 < q - ⌊q⌋ then ⌊q⌋ + 1
  else if Even ⌊q⌋ then ⌊q⌋ else ⌊q⌋ + 1

/-- Python `round(q, 1)`. -/
def pyRound1 (q : ℚ) : ℚ := (roundHE (q * 10) : ℚ) / 10

/-- Python `round(q, 2)`. -/
def pyRound2 (q : ℚ) : ℚ := (roundHE (q * 100) : ℚ) / 100

/-- Python true division `a / b`, which raises `ZeroDivisionError` when the
denominator is zero. -/
def pyDiv (a b : ℚ) : Except PyErr ℚ :=
  if b = 0 then .error .zeroDivision else .ok (a / b)

/-! ### Room state (`RoomState` TypedDict of `room_agent.py`)

The bounded history windows and the LLM message transcript are carried by the
Python state but never read by any numeric computation; they are omitted. -/

/-- State record threaded through the per-room pipeline stages. -/
structure RoomState where
  room_id : String
  room_type : String
  building_id : String
  floor : ℤ
  capacity : ℕ
  current_occupancy : ℕ
  occupancy_level : String
  temperature_comfort : String
  equipment_running : List String
  water_running : Bool
  estimated_energy_kw : ℚ
  estimated_water_lph : ℚ
  estimated_co2_ppm : ℤ
  thermal_load : String
  predicted_occupancy_1h : ℕ
  predicted_energy_1h : ℚ
  predicted_peak_time : String
  recommendations : List String
  anomalies : List String
  savings_potential : ℚ
  last_updated : String
deriving DecidableEq, Repr

/-! ### RoomAgent helper methods -/

/-- Per-room-type base load table of `RoomAgent._calculate_energy`. -/
def energyBaseLoad (room_type : String) : ℚ :=
  if room_type = "classroom" then 2
  else if room_type = "lab" then 8
  else if room_type = "library" then 3
  else if room_type = "dorm" then 3/2
  else if room_type = "bathroom" then 1
  else if room_type = "cafeteria" then 15
  else 2

/-- Embedding of `RoomAgent._calculate_energy`. -/
def calculate_energy (room_type : String) (occupancy : ℕ) (equipment : List String) : ℚ :=
  energyBaseLoad room_type + (equipment.length : ℚ) * (1/2) + (occupancy : ℚ) * (1/10)

/-- Per-room-type rate table of `RoomAgent._calculate_water`; room types that
are absent from the table fall back to the dictionary-get default of 0. -/
def waterUsageRate (room_type : String) : ℚ :=
  if room_type = "bathroom" then 120
  else if room_type = "cafeteria" then 200
  else if room_type = "lab" then 50
  else if room_type = "classroom" then 10
  else 0

/-- Embedding of `RoomAgent._calculate_water`. -/
def calculate_water (room_type : String) (water_running : Bool) : ℚ :=
  if water_running then waterUsageRate room_type else 0

/-- Embedding of `RoomAgent._calculate_co2`; the crowding factor divides by
`max(capacity, 1)` and the result is truncated by Python `int(...)`. -/
def calculate_co2 (occupancy : ℕ) (capacity : ℕ) : ℤ :=
  pyInt (400 + (occupancy : ℚ) * 100 + ((occupancy : ℚ) / ((max capacity 1 : ℕ) : ℚ)) * 200)

/-- Embedding of `RoomAgent._determine_thermal_load`. -/
def determine_thermal_load (comfort : String) : String :=
  if comfort = "too_cold" then "heating"
  else if comfort = "too_hot" then "cooling"
  else "neutral"

/-- Embedding of `RoomAgent._get_max_energy`. -/
def get_max_energy (room_type : String) : ℚ :=
  if room_type = "classroom" then 5
  else if room_type = "lab" then 15
  else if room_type = "library" then 6
  else if room_type = "dorm" then 3
  else if room_type = "bathroom" then 2
  else if room_type = "cafeteria" then 30
  else 5

/-- Embedding of `RoomAgent._find_peak_time`. -/
def find_peak_time (room_type : String) : String :=
  if room_type = "classroom" then "10:00-11:00"
  else if room_type = "lab" then "14:00-16:00"
  else if room_type = "library" then "19:00-21:00"
  else if room_type = "dorm" then "21:00-23:00"
  else if room_type = "bathroom" then "08:00-09:00"
  else "12:00-13:00"

/-- Embedding of `RoomAgent._predict_occupancy_heuristic`; the wall-clock hour
is an explicit parameter. -/
def predict_occupancy_heuristic (hour : ℕ) (st : RoomState) : ℕ :=
  if 9 ≤ hour ∧ hour < 17 then
    min (pyInt ((st.current_occupancy : ℚ) * (11/10))).toNat st.capacity
  else
    (pyInt ((st.current_occupancy : ℚ) * (8/10))).toNat

/-- Embedding of `RoomAgent._calculate_savings_potential`. -/
def calculate_savings_potential (st : RoomState) : ℚ :=
  let savings : ℚ :=
    (if st.anomalies ≠ [] then (st.anomalies.length : ℚ) * 5 else 0)
    + (if st.temperature_comfort ≠ "comfortable" then 10 else 0)
    + (if (st.current_occupancy : ℚ) / ((max st.capacity 1 : ℕ) : ℚ) < 3/10
          ∧ 2 < st.estimated_energy_kw then 15 else 0)
  min savings 40

/-! ### Pipeline stages (low analysis depth)

In low-budget mode `_analyze_observations` and `_generate_recommendations`
use only the deterministic heuristics below.  `_infer_resources` and
`_predict_demand` still build an LLM prompt, but the LLM answer is only
appended to the transcript; every numeric field is set from the deterministic
helpers, so the stages are embedded as their effect on the numeric state.
The wall-clock timestamp is passed in as `now` and the hour as `hour`. -/

/-- Embedding of `RoomAgent._analyze_observations`, low-budget branch. -/
def analyze_observations_low (now : String) (st : RoomState) : RoomState :=
  let anomalies :=
    (if st.temperature_comfort ≠ "comfortable" then
      [("Temperature discomfort: ") ++ st.temperature_comfort] else [])
    ++ (if (st.current_occupancy : ℚ) < (st.capacity : ℚ) * (1/5)
           ∧ 2 < st.equipment_running.length then
      [("Low occupancy (") ++ toString st.current_occupancy
        ++ (") but multiple equipment running")] else [])
  { st with anomalies := anomalies, last_updated := now }

/-- Embedding of `RoomAgent._infer_resources` (numeric effect). -/
def infer_resources (st : RoomState) : RoomState :=
  { st with
    estimated_energy_kw := calculate_energy st.room_type st.current_occupancy st.equipment_running
    estimated_water_lph := calculate_water st.room_type st.water_running
    estimated_co2_ppm := calculate_co2 st.current_occupancy st.capacity
    thermal_load := determine_thermal_load st.temperature_comfort }

/-- Embedding of `RoomAgent._predict_demand`.  The 1-hour energy prediction
divides by the raw `capacity` (not `max(capacity, 1)`), so the stage raises
`ZeroDivisionError` for a room of capacity 0. -/
def predict_demand (hour : ℕ) (st : RoomState) : Except PyErr RoomState :=
  let pocc := predict_occupancy_heuristic hour st
  match pyDiv (pocc : ℚ) (st.capacity : ℚ) with
  | .error e => .error e
  | .ok ratio =>
    .ok { st with
      predicted_occupancy_1h := pocc
      predicted_energy_1h := ratio * get_max_energy st.room_type
      predicted_peak_time := find_peak_time st.room_type }

/-- Embedding of `RoomAgent._generate_recommendations`, low-budget branch. -/
def generate_recommendations_low (st : RoomState) : RoomState :=
  let recs :=
    (if st.temperature_comfort ≠ "comfortable" then
      ["ACTION: Adjust HVAC to reach comfortable temperature (est. 10% savings)"] else [])
    ++ (if (st.current_occupancy : ℚ) / ((max st.capacity 1 : ℕ) : ℚ) < 3/10
           ∧ 2 < st.estimated_energy_kw then
      ["ACTION: Reduce lighting and equipment in low-occupancy room (est. 15% savings)"] else [])
    ++ (if st.water_running ∧ st.room_type ≠ "bathroom" ∧ st.room_type ≠ "cafeteria" then
      ["ACTION: Check for water leaks or unnecessary usage (est. 20% savings)"] else [])
  let recs := if recs = [] then ["No immediate actions needed - room operating efficiently"] else recs
  { st with
    recommendations := recs
    savings_potential := calculate_savings_potential st }

/-- Low-budget room pipeline: observe, infer resources, predict demand,
recommend, in the strict order wired by `RoomAgent._build_graph`. -/
def pipeline_low (hour : ℕ) (now : String) (st : RoomState) : Except PyErr RoomState :=
  (predict_demand hour (infer_resources (analyze_observations_low now st))).map
    generate_recommendations_low

/-! ### Building agent (`building_agent.py`) -/

/-- Building-level aggregate produced by
`BuildingAgent.aggregate_building_state` (numeric and list fields; the
timestamp and the LLM-generated building recommendations are omitted). -/
structure BuildingState where
  building_id : String
  building_name : String
  total_rooms : ℕ
  total_energy_kw : ℚ
  total_water_lph : ℚ
  total_occupancy : ℕ
  total_capacity : ℕ
  occupancy_rate : ℚ
  avg_co2_ppm : ℤ
  room_states : List RoomState
  anomalies : List String
  room_recommendations : List String
deriving DecidableEq, Repr

/-- Embedding of `BuildingAgent.aggregate_building_state`. -/
def aggregate_building_state (building_id building_name : String)
    (room_states : List RoomState) : BuildingState :=
  let total_energy := (room_states.map (·.estimated_energy_kw)).sum
  let total_water := (room_states.map (·.estimated_water_lph)).sum
  let total_occupancy := (room_states.map (·.current_occupancy)).sum
  let total_capacity := (room_states.map (·.capacity)).sum
  let avg_co2 := ((room_states.map (·.estimated_co2_ppm)).sum : ℚ)
      / ((max room_states.length 1 : ℕ) : ℚ)
  let occupancy_rate := ((total_occupancy : ℚ) / ((max total_capacity 1 : ℕ) : ℚ)) * 100
  { building_id := building_id
    building_name := building_name
    total_rooms := room_states.length
    total_energy_kw := pyRound2 total_energy
    total_water_lph := pyRound2 total_water
    total_occupancy := total_occupancy
    total_capacity := total_capacity
    occupancy_rate := pyRound1 occupancy_rate
    avg_co2_ppm := pyInt avg_co2
    room_states := room_states
    anomalies := room_states.flatMap (fun r => r.anomalies.map (fun a => r.room_id ++ (": ") ++ a))
    room_recommendations :=
      room_states.flatMap (fun r => r.recommendations.map (fun c => r.room_id ++ (": ") ++ c)) }

/-- Savings block returned by `BuildingAgent.calculate_building_savings`. -/
structure SavingsAnalysis where
  room_level_savings : ℚ
  building_level_savings : ℚ
  total_potential_savings : ℚ
  estimated_kwh_saved : ℚ
  estimated_water_saved_lph : ℚ
deriving DecidableEq, Repr

/-- Embedding of `BuildingAgent.calculate_building_savings`; the wall-clock
hour is an explicit parameter.  Note that the cap `min(..., 50)` is applied
only to the displayed `total_potential_savings`, while the kWh and water
conversions use the uncapped `total_savings_potential`. -/
def calculate_building_savings (hour : ℕ) (bs : BuildingState) : SavingsAnalysis :=
  let room_savings := bs.room_states.map (·.savings_potential)
  let avg_room_savings := room_savings.sum / ((max room_savings.length 1 : ℕ) : ℚ)
  let building_coordination_savings : ℚ :=
    (if bs.occupancy_rate < 30 then 10 else 0) + (if 20 < hour ∨ hour < 6 then 15 else 0)
  let total_savings_potential := avg_room_savings + building_coordination_savings
  { room_level_savings := pyRound1 avg_room_savings
    building_level_savings := pyRound1 building_coordination_savings
    total_potential_savings := pyRound1 (min total_savings_potential 50)
    estimated_kwh_saved := pyRound2 (bs.total_energy_kw * total_savings_potential / 100)
    estimated_water_saved_lph := pyRound2 (bs.total_water_lph * total_savings_potential / 100) }

/-! ### Campus graph (`campus_graph.py`): batch execution -/

/-- Embedding of `CampusAgentGraph._run_single_room_agent`: any exception
raised by the pipeline is caught and the pre-pipeline initial state is
returned unchanged.  The pipeline is an arbitrary fallible function, which
covers both deterministic failures (such as the capacity-0 division) and
failed LLM calls. -/
def run_single_room_agent (pipe : RoomState → Except PyErr RoomState)
    (initial_state : RoomState) : RoomState :=
  match pipe initial_state with
  | .ok result => result
  | .error _ => initial_state

/-- Embedding of `CampusAgentGraph._run_room_agents`: every scheduled room
pipeline runs (concurrently in the source; order-independent fan-out) and the
results are keyed by the returned room id. -/
def run_room_agents (pipe : RoomState → Except PyErr RoomState)
    (initial_states : List RoomState) : List (String × RoomState) :=
  initial_states.map (fun st =>
    let r := run_single_room_agent pipe st
    (r.room_id, r))

/-! ### Campus graph: scenario application and budget constraints -/

/-- Raw per-room observation record of the campus dataset (the keys read by
`_apply_scenario` and `_apply_budget_constraints`). -/
structure RoomObs where
  building_id : String
  occupancy : ℕ
  occupancy_level : String
  temperature_comfort : String
  equipment_running : List String
  water_running : Bool
deriving DecidableEq, Repr

/-- Campus dataset: the `rooms` mapping in its Python dict insertion order.
Other top-level entries (`parameters`, campus info) are not touched by
`_apply_scenario` and are omitted. -/
structure CampusData where
  rooms : List (String × RoomObs)
deriving DecidableEq, Repr

/-- Scenario record: `scenario.get('type')` and `scenario.get('building_id')`
(absent keys give `none`). -/
structure Scenario where
  stype : String
  sbuilding_id : Option String
deriving DecidableEq, Repr

/-- Per-room-dict effect of the `_apply_scenario` loops. -/
def applyScenarioRoom (sc : Scenario) (rd : RoomObs) : RoomObs :=
  if sc.stype = "close_building" then
    if some rd.building_id = sc.sbuilding_id then
      { rd with occupancy := 0, equipment_running := [] }
    else rd
  else if sc.stype = "reduce_hvac" then
    if rd.occupancy_level = "low" then
      { rd with temperature_comfort := "comfortable" }
    else rd
  else rd

/-- Rooms mapping after `_apply_scenario` has run its in-place updates. -/
def applyScenarioRooms (sc : Scenario) (rooms : List (String × RoomObs)) :
    List (String × RoomObs) :=
  rooms.map (fun p => (p.1, applyScenarioRoom sc p.2))

/-- Embedding of `CampusAgentGraph._apply_scenario` including its aliasing:
`modified = data.copy()` is a shallow copy, so `modified` and the caller's
`data` share the same `rooms` dict and the same per-room dicts, and the
in-place updates are visible through both.  The first component is the value
returned (bound to `modified_data`), the second is what the caller's `data`
(bound to `limited_data`, the baseline input) contains after the call. -/
def applyScenarioMut (sc : Scenario) (data : CampusData) : CampusData × CampusData :=
  let rooms := applyScenarioRooms sc data.rooms
  (⟨rooms⟩, ⟨rooms⟩)

/-- First-appearance deduplication worker (Python set insertion order of a
dict-ordered traversal, used only to state the specification's reading). -/
def firstDedupGo (seen : List String) : List String → List String
  | [] => []
  | x :: xs => if x ∈ seen then firstDedupGo seen xs else x :: firstDedupGo (x :: seen) xs

/-- Distinct elements of a list in order of first appearance. -/
def firstDedup (l : List String) : List String := firstDedupGo [] l

/-- Validity of an enumeration produced by Python `list(set(xs))`: it lists
each distinct element of `xs` exactly once, in an unspecified, hash-dependent
order. -/
def IsSetOrder (xs avail : List String) : Prop :=
  avail.Nodup ∧ (∀ b ∈ avail, b ∈ xs) ∧ (∀ b ∈ xs, b ∈ avail)

instance (xs avail : List String) : Decidable (IsSetOrder xs avail) :=
  inferInstanceAs (Decidable (_ ∧ _ ∧ _))

/-- Sort key of the `maxRooms` selection: `x[1].get('occupancy', 0)`. -/
def occKey (p : String × RoomObs) : ℕ := p.2.occupancy

/-- Comparison used by `sorted(..., reverse=True)` on the occupancy key:
descending, with ties left in original order (Python sorting is stable, and a
stable sort for a total preorder is unique, so it is embedded as Mathlib's
stable insertion sort). -/
def occGE (p q : String × RoomObs) : Prop := occKey q ≤ occKey p

instance : DecidableRel occGE := fun p q => inferInstanceAs (Decidable (occKey q ≤ occKey p))

instance : IsTotal (String × RoomObs) occGE := ⟨fun p q => le_total (occKey q) (occKey p)⟩

instance : IsTrans (String × RoomObs) occGE :=
  ⟨fun _ _ _ h h' => le_trans h' h⟩

/-- Embedding of `CampusAgentGraph._apply_budget_constraints` on the `rooms`
mapping.  `avail` stands for `list(set(building ids))`, whose order Python
does not derive from the data alone; it is passed in explicitly and
constrained by `IsSetOrder` where a theorem needs its meaning.  The
`budget_level` parameter only tags the returned dataset and is omitted. -/
def applyBudgetConstraints (avail : List String)
    (num_buildings num_rooms : Option ℕ)
    (rooms : List (String × RoomObs)) : List (String × RoomObs) :=
  match num_buildings, num_rooms with
  | none, none => rooms
  | _, _ =>
    let rooms₁ := match num_buildings with
      | some n => rooms.filter (fun p => p.2.building_id ∈ avail.take n)
      | none => rooms
    match num_rooms with
    | some k =>
        if k < rooms₁.length then (List.insertionSort occGE rooms₁).take k else rooms₁
    | none => rooms₁

/-- Selection the specification describes for `maxBuildings`: the first N
distinct building ids in order of first appearance in the data.  Modelled
from the spec for comparison with `applyBudgetConstraints`. -/
def specBuildingSelection (n : ℕ) (rooms : List (String × RoomObs)) :
    List (String × RoomObs) :=
  let sel := (firstDedup (rooms.map (fun p => p.2.building_id))).take n
  rooms.filter (fun p => p.2.building_id ∈ sel)

/-- Embedding of `CampusAgentGraph._compare_states` (percentage part), which
guards the denominator with `max(..., 1)`. -/
def comparePctE (savings baseline : ℚ) : Except PyErr ℚ :=
  (pyDiv savings (max baseline 1)).map (fun q => pyRound1 (q * 100))

/-- Divisions of `_calculate_co2` written out in the `Except` monad, to state
that the guard `max(capacity, 1)` prevents `ZeroDivisionError`. -/
def calcCo2E (occupancy capacity : ℕ) : Except PyErr ℤ :=
  (pyDiv (occupancy : ℚ) ((max capacity 1 : ℕ) : ℚ)).map
    (fun q => pyInt (400 + (occupancy : ℚ) * 100 + q * 200))

/-- Occupancy ratio of `_generate_recommendations` and
`_calculate_savings_potential`, in the `Except` monad. -/
def occupancyRatioE (occupancy capacity : ℕ) : Except PyErr ℚ :=
  pyDiv (occupancy : ℚ) ((max capacity 1 : ℕ) : ℚ)

/-- Building occupancy rate of `aggregate_building_state`, in the `Except`
monad. -/
def buildingOccRateE (total_occupancy total_capacity : ℕ) : Except PyErr ℚ :=
  (pyDiv (total_occupancy : ℚ) ((max total_capacity 1 : ℕ) : ℚ)).map (fun q => q * 100)

/-- The 1-hour energy prediction of `_predict_demand`, in the `Except` monad:
`predicted_occupancy / capacity * max_energy` with no guard on `capacity`. -/
def predictedEnergy1hE (pocc capacity : ℕ) (room_type : String) : Except PyErr ℚ :=
  (pyDiv (pocc : ℚ) (capacity : ℚ)).map (fun q => q * get_max_energy room_type)

/-! ### Agent pool and reconciliation (`_ensure_agents_for_rooms`)

The pool's dicts are modelled as functions from ids to optional agents, so
pool membership is compared extensionally, which is exactly the membership
the claim speaks about.  A room agent is determined by its id and the static
room configuration it was bound to; a building agent by its id, its static
configuration and its registered room agents. -/

/-- Static room configuration from `campus_data['rooms']`
(`room_config.get('building_id')` may be absent). -/
structure RoomCfg where
  building_id : Option String
  rtype : String
  capacity : ℕ
  floor : ℤ
deriving DecidableEq, Repr

/-- Static building configuration from `campus_data['buildings']`. -/
structure BuildingCfg where
  name : String
deriving DecidableEq, Repr

/-- Campus configuration provider (`campus_data` lookups). -/
structure CampusCfg where
  rooms : String → Option RoomCfg
  buildings : String → Option BuildingCfg

/-- Room agent handle: `RoomAgent(room_id, room_config)`. -/
structure RoomAgentM where
  room_id : String
  config : RoomCfg
deriving DecidableEq, Repr

/-- Building agent handle with its registered room agents
(`BuildingAgent.room_agents`). -/
structure BuildingAgentM where
  building_id : String
  config : BuildingCfg
  room_agents : String → Option RoomAgentM

/-- The agent pool owned by `CampusAgentGraph`. -/
structure Pool where
  room_agents : String → Option RoomAgentM
  building_agents : String → Option BuildingAgentM

/-- Single-key dict update. -/
def mapUpdate {β : Type} (m : String → Option β) (k : String) (v : β) :
    String → Option β :=
  fun x => if x = k then some v else m x

/-- Embedding of `BuildingAgent.add_room_agent`. -/
def add_room_agent (b : BuildingAgentM) (rid : String) (a : RoomAgentM) : BuildingAgentM :=
  { b with room_agents := mapUpdate b.room_agents rid a }

/-- One iteration of the room-creation loop of `_ensure_agents_for_rooms`:
create a missing room agent when its configuration exists, and record the
building id the room belongs to.  (Python adds `None` to the
`buildings_needed` set when the configuration has no building id; a `None`
entry never matches a string key of the building dicts nor creates an agent,
so it is dropped here.) -/
def ensureStep (cd : CampusCfg) (acc : (String → Option RoomAgentM) × List String)
    (rid : String) : (String → Option RoomAgentM) × List String :=
  match acc.1 rid with
  | some _ =>
    match cd.rooms rid with
    | some cfg => (acc.1, acc.2 ++ cfg.building_id.toList)
    | none => acc
  | none =>
    match cd.rooms rid with
    | some cfg => (mapUpdate acc.1 rid ⟨rid, cfg⟩, acc.2 ++ cfg.building_id.toList)
    | none => acc

/-- One iteration of the registration loop of `_ensure_agents_for_rooms`:
re-link a tracked room agent to its building agent when both exist. -/
def registerStep (cd : CampusCfg) (roomAgents : String → Option RoomAgentM)
    (bmap : String → Option BuildingAgentM) (rid : String) :
    String → Option BuildingAgentM :=
  match roomAgents rid with
  | none => bmap
  | some a =>
    match (cd.rooms rid).bind (fun cfg => cfg.building_id) with
    | none => bmap
    | some bid =>
      match bmap bid with
      | none => bmap
      | some b => mapUpdate bmap bid (add_room_agent b rid a)

/-- Room agents surviving the eviction filter of `_ensure_agents_for_rooms`
(`rooms_to_keep`). -/
def keptRooms (roomIds : List String) (pool : Pool) : String → Option RoomAgentM :=
  fun rid => if rid ∈ roomIds then pool.room_agents rid else none

/-- Room agents after the creation loop of `_ensure_agents_for_rooms`. -/
def ensuredRooms (cd : CampusCfg) (roomIds : List String) (pool : Pool) :
    String → Option RoomAgentM :=
  (roomIds.foldl (ensureStep cd) (keptRooms roomIds pool, [])).1

/-- The `buildings_needed` set accumulated by the creation loop (as the list
of additions; only membership is consumed downstream). -/
def neededBuildings (cd : CampusCfg) (roomIds : List String) (pool : Pool) : List String :=
  (roomIds.foldl (ensureStep cd) (keptRooms roomIds pool, [])).2

/-- Building agents after eviction of the no-longer-needed ones and creation
of the missing ones (ids with no configuration are skipped). -/
def preBuildings (cd : CampusCfg) (roomIds : List String) (pool : Pool) :
    String → Option BuildingAgentM :=
  fun bid =>
    if bid ∈ neededBuildings cd roomIds pool then
      match pool.building_agents bid with
      | some b => some b
      | none => (cd.buildings bid).map (fun cfg => ⟨bid, cfg, fun _ => none⟩)
    else none

/-- Embedding of `CampusAgentGraph._ensure_agents_for_rooms`:
evict room agents outside the working set, create missing room agents (ids
with no configuration are skipped), evict building agents no longer needed,
create missing building agents, then re-register every tracked room agent to
its building agent. -/
def reconcile (cd : CampusCfg) (roomIds : List String) (pool : Pool) : Pool :=
  { room_agents := ensuredRooms cd roomIds pool
    building_agents := roomIds.foldl (registerStep cd (ensuredRooms cd roomIds pool))
      (preBuildings cd roomIds pool) }

/-! ### Concrete rooms used by the end-to-end example and the witnesses;
`build_room_initial_state` mirrors the defaults of
`CampusAgentGraph._build_room_initial_state`. -/

/-- Initial room state as built by `_build_room_initial_state`. -/
def build_room_initial_state (rid rtype bid : String) (cap occ : ℕ)
    (lvl comfort : String) (equip : List String) (water : Bool) : RoomState :=
  { room_id := rid
    room_type := rtype
    building_id := bid
    floor := 1
    capacity := cap
    current_occupancy := occ
    occupancy_level := lvl
    temperature_comfort := comfort
    equipment_running := equip
    water_running := water
    estimated_energy_kw := 0
    estimated_water_lph := 0
    estimated_co2_ppm := 400
    thermal_load := "neutral"
    predicted_occupancy_1h := 0
    predicted_energy_1h := 0
    predicted_peak_time := ""
    recommendations := []
    anomalies := []
    savings_potential := 0
    last_updated := "" }

/-- Room A of the specification's end-to-end example. -/
def roomA : RoomState :=
  build_room_initial_state ("room_a") ("classroom") ("B1") 30 5 ("low") ("comfortable") [] false

/-- Room B of the specification's end-to-end example. -/
def roomB : RoomState :=
  build_room_initial_state ("room_b") ("lab") ("B1") 20 18 ("high") ("too_hot")
    ["hood", "computers"] false

/-- Capacity-zero room used for the division-by-zero analyses. -/
def roomZeroCap : RoomState :=
  build_room_initial_state ("room_z") ("classroom") ("B1") 0 0 ("low") ("comfortable") [] false

/-- Observation for a room in building B1 of the failing input. -/
def obsR1 : RoomObs :=
  { building_id := "B1", occupancy := 3, occupancy_level := "low"
    temperature_comfort := "comfortable", equipment_running := ["light"]
    water_running := false }

/-- Observation for a room in building B2 of the failing input. -/
def obsR2 : RoomObs :=
  { building_id := "B2", occupancy := 7, occupancy_level := "medium"
    temperature_comfort := "too_hot", equipment_running := ["projector"]
    water_running := true }

/-- Failing input dataset: one room in B1 and one in B2. -/
def dataD0 : CampusData := ⟨[("r1", obsR1), ("r2", obsR2)]⟩

/-- Scenario closing building B1. -/
def scenarioCloseB1 : Scenario := ⟨"close_building", some ("B1")⟩

/-- Room state with the maximal room-level savings potential, used to exceed
the building cap. -/
def roomHighSav : RoomState :=
  { build_room_initial_state ("room_s") ("classroom") ("B1") 10 0
      ("low") ("comfortable") [] false with
    estimated_energy_kw := 10
    savings_potential := 40 }

/-- Building aggregate of the single high-savings room. -/
def bsX : BuildingState := aggregate_building_state ("B1") ("Building 1") [roomHighSav]

/-- A building map already carries the registration of room `rid`: whenever
`rid` is tracked with agent `a` and its configuration names building `bid`
with a live building agent `b`, that agent already has `a` registered. -/
def RegisteredAt (cd : CampusCfg) (ra : String → Option RoomAgentM)
    (bmap : String → Option BuildingAgentM) (rid : String) : Prop :=
  ∀ a bid b, ra rid = some a →
    ((cd.rooms rid).bind (fun c => c.building_id)) = some bid →
    bmap bid = some b → b.room_agents rid = some a

/-! ### Shared numeric lemmas -/

/-- Extensionality for building agents. -/
@[ext] theorem buildingAgentM_ext {a b : BuildingAgentM}
    (h₁ : a.building_id = b.building_id) (h₂ : a.config = b.config)
    (h₃ : ∀ rid, a.room_agents rid = b.room_agents rid) : a = b := by
  cases a; cases b
  simp only [BuildingAgentM.mk.injEq]
  exact ⟨h₁, h₂, funext h₃⟩

/-- Extensionality for pools. -/
@[ext] theorem pool_ext {a b : Pool}
    (h₁ : ∀ rid, a.room_agents rid = b.room_agents rid)
    (h₂ : ∀ bid, a.building_agents bid = b.building_agents bid) : a = b := by
  cases a; cases b
  simp only [Pool.mk.injEq]
  exact ⟨funext h₁, funext h₂⟩


theorem pyInt_of_nonneg {q : ℚ} (h : 0 ≤ q) : pyInt q = ⌊q⌋ := if_pos h

theorem roundHE_nonneg {q : ℚ} (h : 0 ≤ q) : 0 ≤ roundHE q := by
  have hf : (0 : ℤ) ≤ ⌊q⌋ := Int.le_floor.mpr (by exact_mod_cast h)
  unfold roundHE
  split_ifs <;> omega

theorem roundHE_le {q : ℚ} {n : ℤ} (h : q ≤ (n : ℚ)) : roundHE q ≤ n := by
  have hfl : ⌊q⌋ ≤ n := by
    have := Int.floor_le_floor h
    simpa using this
  have hne : ¬(q - (⌊q⌋ : ℚ) < 1/2) → ⌊q⌋ ≠ n := by
    intro hge he
    apply hge
    have hc : (⌊q⌋ : ℚ) = (n : ℚ) := by exact_mod_cast he
    linarith
  unfold roundHE
  split_ifs with h₁ h₂ h₃
  · exact hfl
  · have := hne h₁
    omega
  · exact hfl
  · have := hne h₁
    omega

theorem pyRound1_nonneg {q : ℚ} (h : 0 ≤ q) : 0 ≤ pyRound1 q := by
  have := roundHE_nonneg (by positivity : (0:ℚ) ≤ q * 10)
  unfold pyRound1
  positivity

theorem pyRound1_le {q : ℚ} {n : ℤ} (h : q ≤ (n : ℚ)) : pyRound1 q ≤ (n : ℚ) := by
  have h10 : q * 10 ≤ ((10 * n : ℤ) : ℚ) := by push_cast; linarith
  have hr : roundHE (q * 10) ≤ 10 * n := roundHE_le h10
  have hrq : (roundHE (q * 10) : ℚ) ≤ ((10 * n : ℤ) : ℚ) := by exact_mod_cast hr
  unfold pyRound1
  rw [div_le_iff₀ (by norm_num : (0:ℚ) < 10)]
  push_cast at hrq ⊢
  linarith

/-- Rounding after the 50 % cap keeps the displayed savings inside [0, 50]. -/
theorem pyRound1_min50_mem (q : ℚ) (h0 : 0 ≤ q) :
    0 ≤ pyRound1 (min q 50) ∧ pyRound1 (min q 50) ≤ 50 := by
  constructor
  · exact pyRound1_nonneg (le_min h0 (by norm_num))
  · have h50 : min q 50 ≤ ((50:ℤ) : ℚ) := by
      push_cast
      exact min_le_right q 50
    calc pyRound1 (min q 50) ≤ ((50:ℤ) : ℚ) := pyRound1_le h50
      _ = 50 := by norm_num

/-! ### C1: canonical deterministic estimates of InferResources -/

/-- C1.  For every room state (with positive capacity, as required for the
claim's `occupancy/capacity` term to denote), the InferResources stage sets
energy to base load + 0.5 per running equipment + 0.1 per occupant, water to
the per-type rate when running and 0 otherwise, CO2 to the integer part of
400 + 100·occupancy + 200·(occupancy/capacity), and the thermal load to
heating/cooling/neutral according to comfort; the classroom and lab examples
evaluate to 2.5 kW / 0 L/h / 933 ppm and 10.8 kW / cooling. -/
theorem infer_resources_canonical (st : RoomState) (hcap : 0 < st.capacity) :
    (infer_resources st).estimated_energy_kw
        = energyBaseLoad st.room_type + (1/2) * (st.equipment_running.length : ℚ)
          + (1/10) * (st.current_occupancy : ℚ)
    ∧ (infer_resources st).estimated_water_lph
        = (if st.water_running then waterUsageRate st.room_type else 0)
    ∧ (infer_resources st).estimated_co2_ppm
        = ⌊400 + 100 * (st.current_occupancy : ℚ)
            + 200 * ((st.current_occupancy : ℚ) / (st.capacity : ℚ))⌋
    ∧ (infer_resources st).thermal_load
        = (if st.temperature_comfort = "too_cold" then "heating"
           else if st.temperature_comfort = "too_hot" then "cooling" else "neutral")
    ∧ (infer_resources roomA).estimated_energy_kw = 5/2
    ∧ (infer_resources roomA).estimated_water_lph = 0
    ∧ (infer_resources roomA).estimated_co2_ppm = 933
    ∧ (infer_resources roomB).estimated_energy_kw = 54/5
    ∧ (infer_resources roomB).thermal_load = "cooling" := by
  refine ⟨?_, ?_, ?_, ?_, ?_, ?_, ?_, ?_, ?_⟩
  · simp only [infer_resources, calculate_energy]
    ring
  · simp only [infer_resources, calculate_water]
  · show calculate_co2 st.current_occupancy st.capacity = _
    rw [calculate_co2, max_eq_left hcap, pyInt_of_nonneg (by positivity)]
    congr 1
    ring
  · simp only [infer_resources, determine_thermal_load]
  · show calculate_energy ("classroom") 5 [] = 5/2
    rw [calculate_energy, show energyBaseLoad ("classroom") = 2 from by decide]
    norm_num
  · show calculate_water ("classroom") false = 0
    rfl
  · show calculate_co2 5 30 = 933
    rw [calculate_co2]
    norm_num [pyInt]
  · show calculate_energy ("lab") 18 ["hood", "computers"] = 54/5
    rw [calculate_energy, show energyBaseLoad ("lab") = 8 from by decide]
    norm_num
  · show determine_thermal_load ("too_hot") = "cooling"
    rfl

/-- Witness for C1, instantiated at the lab example room. -/
theorem infer_resources_canonical_witness :
    (infer_resources roomB).estimated_energy_kw
        = energyBaseLoad roomB.room_type + (1/2) * (roomB.equipment_running.length : ℚ)
          + (1/10) * (roomB.current_occupancy : ℚ)
      ∧ (infer_resources roomB).thermal_load = "cooling" := by
  obtain ⟨h₁, _, _, _, _, _, _, _, h₂⟩ := infer_resources_canonical roomB (by decide)
  exact ⟨h₁, h₂⟩

/-! ### C10: water rate defaults to zero for room types outside the table -/

/-- C10.  A dorm or library room with water running is assigned an inferred
water usage of 0 L/h, and more generally every room type outside the
bathroom/cafeteria/lab/classroom table falls back to the rate 0 even when
water is running. -/
theorem water_rate_defaults_to_zero (st : RoomState)
    (hw : st.water_running = true)
    (hd : st.room_type = "dorm" ∨ st.room_type = "library") :
    (infer_resources st).estimated_water_lph = 0
    ∧ (∀ t : String, t ∉ (["bathroom", "cafeteria", "lab", "classroom"] : List String) →
        calculate_water t true = 0) := by
  constructor
  · rcases hd with h | h <;>
      simp [infer_resources, calculate_water, waterUsageRate, hw, h]
  · intro t ht
    simp only [List.mem_cons, List.not_mem_nil, or_false, not_or] at ht
    obtain ⟨h₁, h₂, h₃, h₄⟩ := ht
    simp [calculate_water, waterUsageRate, h₁, h₂, h₃, h₄]

/-- Witness for C10, instantiated at a dorm room with water running. -/
theorem water_rate_defaults_to_zero_witness :
    (infer_resources (build_room_initial_state ("room_d") ("dorm") ("B1") 10 2
        ("low") ("comfortable") [] true)).estimated_water_lph = 0 :=
  (water_rate_defaults_to_zero _ (by decide) (Or.inl (by decide))).1

/-! ### C7: room-level invariants of a completed pipeline run -/

theorem calculate_savings_potential_bounds (st : RoomState) :
    0 ≤ calculate_savings_potential st ∧ calculate_savings_potential st ≤ 40 := by
  unfold calculate_savings_potential
  refine ⟨le_min ?_ (by norm_num), min_le_right _ _⟩
  have h₁ : (0:ℚ) ≤ (if st.anomalies ≠ [] then (st.anomalies.length : ℚ) * 5 else 0) := by
    split_ifs <;> positivity
  have h₂ : (0:ℚ) ≤ (if st.temperature_comfort ≠ "comfortable" then (10:ℚ) else 0) := by
    split_ifs <;> norm_num
  have h₃ : (0:ℚ) ≤ (if (st.current_occupancy : ℚ) / ((max st.capacity 1 : ℕ) : ℚ) < 3/10
      ∧ 2 < st.estimated_energy_kw then (15:ℚ) else 0) := by
    split_ifs <;> norm_num
  linarith

theorem calculate_co2_ge_400 (occupancy capacity : ℕ) :
    400 ≤ calculate_co2 occupancy capacity := by
  have hq : (400:ℚ) ≤ 400 + (occupancy : ℚ) * 100
      + ((occupancy : ℚ) / ((max capacity 1 : ℕ) : ℚ)) * 200 := by
    have h₁ : (0:ℚ) ≤ (occupancy : ℚ) * 100 := by positivity
    have h₂ : (0:ℚ) ≤ ((occupancy : ℚ) / ((max capacity 1 : ℕ) : ℚ)) * 200 := by positivity
    linarith
  have h0 : (0:ℚ) ≤ 400 + (occupancy : ℚ) * 100
      + ((occupancy : ℚ) / ((max capacity 1 : ℕ) : ℚ)) * 200 := by linarith
  rw [calculate_co2, pyInt_of_nonneg h0]
  exact Int.le_floor.mpr (by exact_mod_cast hq)

/-- Demand prediction only fills the prediction fields: every other field of
the state, in particular the inferred CO2 and the observation fields feeding
the savings computation, is passed through unchanged. -/
theorem predict_demand_preserves (hour : ℕ) (st res : RoomState)
    (h : predict_demand hour st = .ok res) :
    res.estimated_co2_ppm = st.estimated_co2_ppm
    ∧ res.anomalies = st.anomalies
    ∧ res.temperature_comfort = st.temperature_comfort
    ∧ res.current_occupancy = st.current_occupancy
    ∧ res.capacity = st.capacity
    ∧ res.estimated_energy_kw = st.estimated_energy_kw := by
  simp only [predict_demand] at h
  rcases hdiv : pyDiv ((predict_occupancy_heuristic hour st : ℕ) : ℚ) ((st.capacity : ℕ) : ℚ)
    with e | ratio <;> rw [hdiv] at h
  · simp at h
  · simp only [Except.ok.injEq] at h
    subst h
    exact ⟨rfl, rfl, rfl, rfl, rfl, rfl⟩

/-- C7.  Every room state returned by a completed low-budget pipeline run has
an inferred CO2 estimate of at least the 400 ppm ambient baseline, and a
savings-potential percentage within the closed interval [0, 40]. -/
theorem pipeline_low_room_invariants (hour : ℕ) (now : String) (st res : RoomState)
    (h : pipeline_low hour now st = .ok res) :
    400 ≤ res.estimated_co2_ppm
    ∧ 0 ≤ res.savings_potential ∧ res.savings_potential ≤ 40 := by
  rw [pipeline_low] at h
  rcases hpd : predict_demand hour (infer_resources (analyze_observations_low now st))
    with e | mid <;> rw [hpd] at h
  · simp [Except.map] at h
  · simp only [Except.map, Except.ok.injEq] at h
    subst h
    refine ⟨?_, (calculate_savings_potential_bounds mid).1,
      (calculate_savings_potential_bounds mid).2⟩
    have h₁ : (generate_recommendations_low mid).estimated_co2_ppm
        = mid.estimated_co2_ppm := rfl
    obtain ⟨hmid, -⟩ := predict_demand_preserves _ _ _ hpd
    rw [h₁, hmid]
    exact calculate_co2_ge_400 _ _

/-- Witness for C7: a completed run on the example classroom. -/
theorem pipeline_low_room_invariants_witness :
    ∃ res, pipeline_low 10 ("t0") roomA = .ok res
      ∧ 400 ≤ res.estimated_co2_ppm
      ∧ 0 ≤ res.savings_potential ∧ res.savings_potential ≤ 40 := by
  have hok : ∃ res, pipeline_low 10 ("t0") roomA = .ok res := by
    rw [pipeline_low]
    rcases hpd : predict_demand 10 (infer_resources (analyze_observations_low ("t0") roomA))
      with e | mid
    · exfalso
      revert hpd
      norm_num [predict_demand, pyDiv, roomA, build_room_initial_state,
        analyze_observations_low, infer_resources]
      exact fun hc => Except.noConfusion hc
    · exact ⟨generate_recommendations_low mid, rfl⟩
  obtain ⟨res, hrun⟩ := hok
  exact ⟨res, hrun, pipeline_low_room_invariants 10 ("t0") roomA res hrun⟩

/-! ### C3: division guards -/

/-- Counterexample to C3: for the capacity-0 classroom, the PredictDemand
stage raises ZeroDivisionError instead of completing, because the 1-hour
energy prediction divides by the raw capacity. -/
theorem predict_demand_zero_capacity_raises :
    roomZeroCap.capacity = 0
    ∧ predict_demand 10 roomZeroCap = .error .zeroDivision := by
  constructor
  · rfl
  · simp [predict_demand, pyDiv, roomZeroCap, build_room_initial_state]

/-- C3 as amended.  All percentage and rate computations except the 1-hour
energy prediction floor their denominator at 1 and therefore never raise:
the CO2 estimate, the room occupancy ratio, the building occupancy rate and
the comparison percentages always return a value.  The 1-hour energy
prediction divides by the raw capacity: it raises ZeroDivisionError exactly
when the room's capacity is 0 (the per-room error handler then returns the
room's pre-pipeline state), and completes for every positive capacity. -/
theorem division_guards_amended :
    (∀ occupancy capacity : ℕ,
        calcCo2E occupancy capacity = .ok (calculate_co2 occupancy capacity))
    ∧ (∀ occupancy capacity : ℕ, ∃ q, occupancyRatioE occupancy capacity = .ok q)
    ∧ (∀ tocc tcap : ℕ, ∃ q, buildingOccRateE tocc tcap = .ok q)
    ∧ (∀ savings baseline : ℚ, ∃ q, comparePctE savings baseline = .ok q)
    ∧ (∀ (hour : ℕ) (st : RoomState), st.capacity = 0 →
        predict_demand hour st = .error .zeroDivision)
    ∧ (∀ (hour : ℕ) (st : RoomState), 0 < st.capacity →
        ∃ res, predict_demand hour st = .ok res) := by
  have hmaxne : ∀ n : ℕ, (((max n 1 : ℕ) : ℚ)) ≠ 0 := by
    intro n
    have : (0:ℕ) < max n 1 := lt_of_lt_of_le one_pos (le_max_right n 1)
    exact_mod_cast this.ne'
  refine ⟨?_, ?_, ?_, ?_, ?_, ?_⟩
  · intro occupancy capacity
    rw [calcCo2E, pyDiv, if_neg (hmaxne capacity)]
    rfl
  · intro occupancy capacity
    exact ⟨_, by rw [occupancyRatioE, pyDiv, if_neg (hmaxne capacity)]⟩
  · intro tocc tcap
    exact ⟨_, by rw [buildingOccRateE, pyDiv, if_neg (hmaxne tcap)]; rfl⟩
  · intro savings baseline
    have hne : max baseline 1 ≠ 0 := by
      have : (0:ℚ) < max baseline 1 := lt_of_lt_of_le one_pos (le_max_right baseline 1)
      exact this.ne'
    exact ⟨_, by rw [comparePctE, pyDiv, if_neg hne]; rfl⟩
  · intro hour st hcap
    rw [predict_demand, pyDiv]
    rw [if_pos (by rw [hcap]; norm_num)]
  · intro hour st hcap
    rw [predict_demand, pyDiv]
    rw [if_neg (by exact_mod_cast hcap.ne')]
    exact ⟨_, rfl⟩

/-- Witness for C3's amended statement: the guard succeeds for a capacity-0
CO2 estimate, while the unguarded prediction raises there. -/
theorem division_guards_amended_witness :
    calcCo2E 5 0 = .ok (calculate_co2 5 0)
    ∧ predict_demand 10 roomZeroCap = .error .zeroDivision := by
  obtain ⟨h₁, -, -, -, h₅, -⟩ := division_guards_amended
  exact ⟨h₁ 5 0, h₅ 10 roomZeroCap rfl⟩

/-! ### C8: per-room failures are isolated -/

/-- C8.  If the pipeline of the i-th room raises, the batch result for that
room is its pre-pipeline initial state unchanged, and every room of the
batch still contributes the result of its own pipeline, independent of the
failure. -/
theorem room_failure_isolated (pipe : RoomState → Except PyErr RoomState)
    (inits : List RoomState) (i : ℕ) (hi : i < inits.length) (e : PyErr)
    (herr : pipe inits[i] = .error e) :
    (run_room_agents pipe inits).length = inits.length
    ∧ (run_room_agents pipe inits)[i]? = some (inits[i].room_id, inits[i])
    ∧ ∀ (j : ℕ) (hj : j < inits.length),
        (run_room_agents pipe inits)[j]?
          = some ((run_single_room_agent pipe inits[j]).room_id,
              run_single_room_agent pipe inits[j]) := by
  refine ⟨by simp [run_room_agents], ?_, ?_⟩
  · have hsingle : run_single_room_agent pipe inits[i] = inits[i] := by
      rw [run_single_room_agent, herr]
    simp only [run_room_agents, List.getElem?_map, List.getElem?_eq_getElem hi,
      Option.map_some', hsingle]
  · intro j hj
    simp only [run_room_agents, List.getElem?_map, List.getElem?_eq_getElem hj,
      Option.map_some']

/-- Witness for C8: a batch of the capacity-0 room (whose pipeline raises)
and the example classroom; the failing room falls back to its initial
state. -/
theorem room_failure_isolated_witness :
    (run_room_agents (pipeline_low 10 ("t0")) [roomZeroCap, roomA]).length = 2
    ∧ (run_room_agents (pipeline_low 10 ("t0")) [roomZeroCap, roomA])[0]?
        = some (roomZeroCap.room_id, roomZeroCap) := by
  have herr : pipeline_low 10 ("t0") (([roomZeroCap, roomA] : List RoomState)[0])
      = .error .zeroDivision := by
    show pipeline_low 10 ("t0") roomZeroCap = .error .zeroDivision
    simp [pipeline_low, predict_demand, pyDiv, roomZeroCap, build_room_initial_state,
      analyze_observations_low, infer_resources, Except.map]
  obtain ⟨h₁, h₂, -⟩ := room_failure_isolated (pipeline_low 10 ("t0")) [roomZeroCap, roomA]
    0 (by norm_num) .zeroDivision herr
  exact ⟨h₁, h₂⟩

/-! ### C2: scenario application aliases the baseline input -/

/-- C2, evaluated at the failing input.  The per-room transformation of
`close_building` does zero occupancy and clear equipment exactly for the
rooms of the named building (first conjunct), but because `_apply_scenario`
copies the dataset only shallowly, the caller's dataset observes the same
in-place updates: after the call the baseline input equals the
scenario-applied data and is no longer the original dataset, so the baseline
run operates on scenario-applied data. -/
theorem apply_scenario_mutates_baseline_input :
    ((applyScenarioMut scenarioCloseB1 dataD0).1.rooms
        = [("r1", { obsR1 with occupancy := 0, equipment_running := [] }), ("r2", obsR2)])
    ∧ (applyScenarioMut scenarioCloseB1 dataD0).2 = (applyScenarioMut scenarioCloseB1 dataD0).1
    ∧ (applyScenarioMut scenarioCloseB1 dataD0).2 ≠ dataD0 := by
  refine ⟨?_, rfl, ?_⟩
  · show applyScenarioRooms scenarioCloseB1 dataD0.rooms = _
    simp only [dataD0, applyScenarioRooms, List.map_cons, List.map_nil]
    rw [show applyScenarioRoom scenarioCloseB1 obsR1
        = { obsR1 with occupancy := 0, equipment_running := [] } from by decide]
    rw [show applyScenarioRoom scenarioCloseB1 obsR2 = obsR2 from by decide]
  · intro hc
    have h3 : ((applyScenarioMut scenarioCloseB1 dataD0).2.rooms.map
        (fun p => p.2.occupancy)) = dataD0.rooms.map (fun p => p.2.occupancy) := by
      rw [hc]
    revert h3
    decide

/-! ### C6: building savings -/

/-- Counterexample to C6: at 22:00 with building occupancy 0%, the building
savings total is 40 + 10 + 15 = 65; the displayed value is capped at 50, but
the kWh conversion uses the uncapped 65, giving 6.5 kWh on a 10 kW building
instead of the 5 kWh the claim's capped conversion would give. -/
theorem building_savings_uses_uncapped_total :
    (calculate_building_savings 22 bsX).total_potential_savings = 50
    ∧ bsX.total_energy_kw = 10
    ∧ (calculate_building_savings 22 bsX).estimated_kwh_saved = 13/2
    ∧ pyRound2 (bsX.total_energy_kw
        * (calculate_building_savings 22 bsX).total_potential_savings / 100) = 5
    ∧ (13/2 : ℚ) ≠ 5 := by
  have hbs : bsX
      = ⟨"B1", "Building 1", 1, 10, 0, 0, 10, 0, 400, [roomHighSav], [], []⟩ := by
    rw [bsX, aggregate_building_state]
    norm_num [roomHighSav, build_room_initial_state, pyRound1, pyRound2, pyInt, roundHE]
  rw [hbs, calculate_building_savings]
  norm_num [roomHighSav, build_room_initial_state, pyRound1, pyRound2, pyInt, roundHE,
    Int.floor_intCast]

/-- C6 as amended.  The displayed building savings equal the mean of the room
savings plus 10 (occupancy rate below 30 %) plus 15 (hour after 20 or before
6) capped at 50, and always lie in [0, 50] when the room savings are
non-negative; the kWh and L/h conversions, however, apply the *uncapped*
total to the building's energy and water totals. -/
theorem building_savings_amended (hour : ℕ) (bs : BuildingState)
    (_hne : bs.room_states ≠ [])
    (hsav : ∀ r ∈ bs.room_states, 0 ≤ r.savings_potential) :
    0 ≤ (calculate_building_savings hour bs).total_potential_savings
    ∧ (calculate_building_savings hour bs).total_potential_savings ≤ 50
    ∧ (calculate_building_savings hour bs).total_potential_savings
        = pyRound1 (min ((bs.room_states.map (·.savings_potential)).sum
              / ((max (bs.room_states.map (·.savings_potential)).length 1 : ℕ) : ℚ)
            + ((if bs.occupancy_rate < 30 then 10 else 0)
              + (if 20 < hour ∨ hour < 6 then 15 else 0))) 50)
    ∧ (calculate_building_savings hour bs).estimated_kwh_saved
        = pyRound2 (bs.total_energy_kw * ((bs.room_states.map (·.savings_potential)).sum
              / ((max (bs.room_states.map (·.savings_potential)).length 1 : ℕ) : ℚ)
            + ((if bs.occupancy_rate < 30 then 10 else 0)
              + (if 20 < hour ∨ hour < 6 then 15 else 0))) / 100)
    ∧ (calculate_building_savings hour bs).estimated_water_saved_lph
        = pyRound2 (bs.total_water_lph * ((bs.room_states.map (·.savings_potential)).sum
              / ((max (bs.room_states.map (·.savings_potential)).length 1 : ℕ) : ℚ)
            + ((if bs.occupancy_rate < 30 then 10 else 0)
              + (if 20 < hour ∨ hour < 6 then 15 else 0))) / 100) := by
  have havg : (0:ℚ) ≤ (bs.room_states.map (·.savings_potential)).sum
      / ((max (bs.room_states.map (·.savings_potential)).length 1 : ℕ) : ℚ) := by
    apply div_nonneg
    · apply List.sum_nonneg
      intro x hx
      obtain ⟨r, hr, rfl⟩ := List.mem_map.mp hx
      exact hsav r hr
    · positivity
  have hcoord : (0:ℚ) ≤ (if bs.occupancy_rate < 30 then (10:ℚ) else 0)
      + (if 20 < hour ∨ hour < 6 then (15:ℚ) else 0) := by
    have h₁ : (0:ℚ) ≤ (if bs.occupancy_rate < 30 then (10:ℚ) else 0) := by
      split_ifs <;> norm_num
    have h₂ : (0:ℚ) ≤ (if 20 < hour ∨ hour < 6 then (15:ℚ) else 0) := by
      split_ifs <;> norm_num
    linarith
  refine ⟨?_, ?_, rfl, rfl, rfl⟩
  · exact (pyRound1_min50_mem _ (by linarith)).1
  · exact (pyRound1_min50_mem _ (by linarith)).2

/-- Witness for C6's amended statement at 22:00 on the one-room building. -/
theorem building_savings_amended_witness :
    0 ≤ (calculate_building_savings 22 bsX).total_potential_savings
    ∧ (calculate_building_savings 22 bsX).total_potential_savings ≤ 50 := by
  obtain ⟨h₁, h₂, -⟩ := building_savings_amended 22 bsX (by simp [bsX, aggregate_building_state])
    (by
      intro r hr
      have : r = roomHighSav := by
        simpa [bsX, aggregate_building_state] using hr
      rw [this]
      norm_num [roomHighSav, build_room_initial_state])
  exact ⟨h₁, h₂⟩

/-! ### C4: building budget uses Python set order, not first appearance -/

theorem mem_firstDedupGo (l : List String) :
    ∀ (seen : List String) (b : String),
      b ∈ firstDedupGo seen l ↔ b ∈ l ∧ b ∉ seen := by
  induction l with
  | nil => intro seen b; simp [firstDedupGo]
  | cons x xs ih =>
    intro seen b
    rw [firstDedupGo]
    by_cases hx : x ∈ seen
    · rw [if_pos hx, ih]
      constructor
      · rintro ⟨hb, hbs⟩
        exact ⟨List.mem_cons_of_mem x hb, hbs⟩
      · rintro ⟨hb, hbs⟩
        rcases List.mem_cons.mp hb with rfl | hb'
        · exact absurd hx hbs
        · exact ⟨hb', hbs⟩
    · rw [if_neg hx]
      constructor
      · intro hb
        rcases List.mem_cons.mp hb with rfl | hb'
        · exact ⟨List.mem_cons_self _ _, hx⟩
        · obtain ⟨h₁, h₂⟩ := (ih (x :: seen) b).mp hb'
          refine ⟨List.mem_cons_of_mem x h₁, ?_⟩
          intro hc
          exact h₂ (List.mem_cons_of_mem x hc)
      · rintro ⟨hb, hbs⟩
        rcases List.mem_cons.mp hb with rfl | hb'
        · exact List.mem_cons_self _ _
        · by_cases hbx : b = x
          · subst hbx
            exact List.mem_cons_self _ _
          · refine List.mem_cons_of_mem _ ((ih (x :: seen) b).mpr ⟨hb', ?_⟩)
            intro hc
            rcases List.mem_cons.mp hc with h | h
            · exact hbx h
            · exact hbs h

theorem nodup_firstDedupGo (l : List String) :
    ∀ seen : List String, (firstDedupGo seen l).Nodup := by
  induction l with
  | nil => intro seen; simp [firstDedupGo]
  | cons x xs ih =>
    intro seen
    rw [firstDedupGo]
    by_cases hx : x ∈ seen
    · rw [if_pos hx]; exact ih seen
    · rw [if_neg hx]
      refine List.nodup_cons.mpr ⟨?_, ih (x :: seen)⟩
      intro hc
      exact ((mem_firstDedupGo xs (x :: seen) x).mp hc).2 (List.mem_cons_self _ _)

theorem mem_firstDedup (l : List String) (b : String) : b ∈ firstDedup l ↔ b ∈ l := by
  rw [firstDedup, mem_firstDedupGo]
  simp

theorem nodup_firstDedup (l : List String) : (firstDedup l).Nodup :=
  nodup_firstDedupGo l []

/-- Counterexample to C4: with two rooms whose buildings first appear in the
order B1, B2, the enumeration ["B2", "B1"] is a legitimate Python
`list(set(...))` result, and with maxBuildings = 1 the code then keeps the B2
room, not the B1 room that the first-appearance rule of the claim selects. -/
theorem budget_buildings_not_first_appearance :
    IsSetOrder (dataD0.rooms.map (fun p => p.2.building_id)) ["B2", "B1"]
    ∧ applyBudgetConstraints ["B2", "B1"] (some 1) none dataD0.rooms = [("r2", obsR2)]
    ∧ specBuildingSelection 1 dataD0.rooms = [("r1", obsR1)]
    ∧ applyBudgetConstraints ["B2", "B1"] (some 1) none dataD0.rooms
        ≠ specBuildingSelection 1 dataD0.rooms := by
  refine ⟨by decide, by decide, by decide, by decide⟩

/-- C4 as amended.  With maxBuildings = N the code keeps exactly the rooms
whose building id lies among the first N entries of the `list(set(...))`
enumeration of the building ids — an enumeration whose order is
hash-dependent and not guaranteed to be the order of first appearance (nor
stable across interpreter runs).  The result is always a sublist of the
data containing at most N distinct buildings, all present in the data. -/
theorem budget_buildings_amended (rooms : List (String × RoomObs)) (n : ℕ)
    (avail : List String)
    (h : IsSetOrder (rooms.map (fun p => p.2.building_id)) avail) :
    applyBudgetConstraints avail (some n) none rooms <+ rooms
    ∧ (∀ p ∈ rooms,
        p ∈ applyBudgetConstraints avail (some n) none rooms
          ↔ p.2.building_id ∈ avail.take n)
    ∧ (firstDedup ((applyBudgetConstraints avail (some n) none rooms).map
        (fun p => p.2.building_id))).length ≤ n
    ∧ (∀ b ∈ avail.take n, b ∈ rooms.map (fun p => p.2.building_id)) := by
  have hres : applyBudgetConstraints avail (some n) none rooms
      = rooms.filter (fun p => decide (p.2.building_id ∈ avail.take n)) := rfl
  refine ⟨?_, ?_, ?_, ?_⟩
  · rw [hres]
    exact List.filter_sublist rooms
  · intro p hp
    rw [hres, List.mem_filter]
    simp [hp]
  · have hsub : firstDedup ((applyBudgetConstraints avail (some n) none rooms).map
        (fun p => p.2.building_id)) ⊆ avail.take n := by
      intro b hb
      rw [mem_firstDedup] at hb
      obtain ⟨p, hp, rfl⟩ := List.mem_map.mp hb
      rw [hres, List.mem_filter] at hp
      simpa using hp.2
    have hlen := (List.Nodup.subperm (nodup_firstDedup _) hsub).length_le
    calc (firstDedup ((applyBudgetConstraints avail (some n) none rooms).map
          (fun p => p.2.building_id))).length
        ≤ (avail.take n).length := hlen
      _ ≤ n := List.length_take_le n avail
  · intro b hb
    exact h.2.1 b (List.take_subset n avail hb)

/-- Witness for C4's amended statement at the two-building dataset. -/
theorem budget_buildings_amended_witness :
    applyBudgetConstraints ["B1", "B2"] (some 1) none dataD0.rooms <+ dataD0.rooms
    ∧ (firstDedup ((applyBudgetConstraints ["B1", "B2"] (some 1) none dataD0.rooms).map
        (fun p => p.2.building_id))).length ≤ 1 := by
  obtain ⟨h₁, -, h₃, -⟩ := budget_buildings_amended dataD0.rooms 1 ["B1", "B2"] (by decide)
  exact ⟨h₁, h₃⟩

/-! ### C5: maxRooms keeps the k highest-occupancy rooms, stably -/

/-- Any two distinct members of a list appear in one of the two orders. -/
theorem pair_sublist_or {α : Type} {x y : α} :
    ∀ {l : List α}, x ∈ l → y ∈ l → x ≠ y → [x, y] <+ l ∨ [y, x] <+ l := by
  intro l
  induction l with
  | nil => intro hx; cases hx
  | cons c t ih =>
    intro hx hy hne
    rcases List.mem_cons.mp hx with rfl | hx'
    · have hy' : y ∈ t := by
        rcases List.mem_cons.mp hy with h | h
        · exact absurd h.symm hne
        · exact h
      exact Or.inl (List.Sublist.cons₂ x (List.singleton_sublist.mpr hy'))
    · rcases List.mem_cons.mp hy with rfl | hy'
      · exact Or.inr (List.Sublist.cons₂ y (List.singleton_sublist.mpr hx'))
      · rcases ih hx' hy' hne with h | h
        · exact Or.inl (h.cons c)
        · exact Or.inr (h.cons c)

/-- In a duplicate-free list, a pair sublist keeps its first component inside
every prefix that contains its second component. -/
theorem mem_take_of_pair_sublist {α : Type} {a b : α} :
    ∀ (l : List α) (k : ℕ), l.Nodup → [a, b] <+ l → b ∈ l.take k → a ∈ l.take k := by
  intro l
  induction l with
  | nil =>
    intro k _ h hb
    simp at hb
  | cons c t ih =>
    intro k hnd h hb
    cases k with
    | zero => simp at hb
    | succ k =>
      rw [List.take_succ_cons] at hb ⊢
      rcases List.mem_cons.mp hb with rfl | hb'
      · cases h with
        | cons _ h' =>
          exact absurd (h'.subset (by simp)) (List.nodup_cons.mp hnd).1
        | cons₂ _ h' =>
          exact List.mem_cons_self _ _
      · cases h with
        | cons _ h' =>
          exact List.mem_cons_of_mem c (ih k (List.Nodup.of_cons hnd) h' hb')
        | cons₂ _ h' =>
          exact List.mem_cons_self _ _

/-- C5.  The maxRooms budget never returns more than the requested number of
rooms (first conjunct, for every dataset and bound).  When the pre-filtered
set has more than k rooms (and room ids are unique, as they are keys of a
Python dict), exactly k rooms are returned, every returned room is a room of
the dataset, each dropped room has occupancy at most that of each selected
room, and a dropped room can tie a selected room only if the selected room
precedes it in the original order (stable selection). -/
theorem budget_max_rooms_top_k (avail : List String) (rooms : List (String × RoomObs))
    (k : ℕ) (hnd : (rooms.map Prod.fst).Nodup) (hk : k < rooms.length) :
    (∀ (rooms' : List (String × RoomObs)) (j : ℕ),
        (applyBudgetConstraints avail none (some j) rooms').length ≤ j)
    ∧ (applyBudgetConstraints avail none (some k) rooms).length = k
    ∧ applyBudgetConstraints avail none (some k) rooms <+~ rooms
    ∧ ∀ x ∈ applyBudgetConstraints avail none (some k) rooms,
        ∀ y ∈ rooms,
          y.1 ∉ (applyBudgetConstraints avail none (some k) rooms).map Prod.fst →
            occKey y ≤ occKey x
            ∧ (occKey y = occKey x → [x, y] <+ rooms) := by
  have hres : applyBudgetConstraints avail none (some k) rooms
      = (List.insertionSort occGE rooms).take k := by
    show (if k < rooms.length then (List.insertionSort occGE rooms).take k else rooms)
        = (List.insertionSort occGE rooms).take k
    rw [if_pos hk]
  have hperm : List.insertionSort occGE rooms ~ rooms := List.perm_insertionSort occGE rooms
  have hsorted : List.Sorted occGE (List.insertionSort occGE rooms) :=
    List.sorted_insertionSort occGE rooms
  have hnd_rooms : rooms.Nodup := List.Nodup.of_map Prod.fst hnd
  have hnd_sort : (List.insertionSort occGE rooms).Nodup := hperm.nodup_iff.mpr hnd_rooms
  refine ⟨?_, ?_, ?_, ?_⟩
  · intro rooms' j
    show (if j < rooms'.length then (List.insertionSort occGE rooms').take j
        else rooms').length ≤ j
    split_ifs with hj
    · exact List.length_take_le j _
    · omega
  · rw [hres, List.length_take, List.length_insertionSort]
    omega
  · rw [hres]
    exact ((List.take_sublist k _).subperm).trans hperm.subperm
  · intro x hx y hy hyid
    rw [hres] at hx hyid
    have hysort : y ∈ List.insertionSort occGE rooms := hperm.mem_iff.mpr hy
    have hytake : y ∉ (List.insertionSort occGE rooms).take k := by
      intro hc
      exact hyid (List.mem_map_of_mem Prod.fst hc)
    have hydrop : y ∈ (List.insertionSort occGE rooms).drop k := by
      rcases List.mem_append.mp
          ((List.take_append_drop k (List.insertionSort occGE rooms)) ▸ hysort) with h | h
      · exact absurd h hytake
      · exact h
    have hocc : occKey y ≤ occKey x :=
      hsorted.rel_of_mem_take_of_mem_drop hx hydrop
    refine ⟨hocc, ?_⟩
    intro heq
    have hxrooms : x ∈ rooms := hperm.mem_iff.mp (List.take_subset k _ hx)
    have hxy : x ≠ y := by
      rintro rfl
      exact hyid (List.mem_map_of_mem Prod.fst hx)
    rcases pair_sublist_or hxrooms hy hxy with h | h
    · exact h
    · exfalso
      have hyx_sort : [y, x] <+ List.insertionSort occGE rooms :=
        List.pair_sublist_insertionSort (le_of_eq heq.symm) h
      have : y ∈ (List.insertionSort occGE rooms).take k :=
        mem_take_of_pair_sublist _ k hnd_sort hyx_sort hx
      exact hytake this

/-- Witness for C5: with two rooms and k = 1, exactly one room is kept. -/
theorem budget_max_rooms_top_k_witness :
    (applyBudgetConstraints [] none (some 1) dataD0.rooms).length = 1 := by
  obtain ⟨-, h, -⟩ := budget_max_rooms_top_k [] dataD0.rooms 1 (by decide) (by decide)
  exact h

/-! ### C9: reconciliation is idempotent -/

theorem mapUpdate_eq_self {β : Type} (m : String → Option β) (k : String) (v : β)
    (h : m k = some v) : mapUpdate m k v = m := by
  funext x
  rw [mapUpdate]
  by_cases hx : x = k
  · subst hx
    rw [if_pos rfl, h]
  · rw [if_neg hx]

theorem add_room_agent_self (b : BuildingAgentM) (rid : String) (a : RoomAgentM)
    (h : b.room_agents rid = some a) : add_room_agent b rid a = b := by
  rw [add_room_agent, mapUpdate_eq_self _ _ _ h]

theorem ensure_fold_some (cd : CampusCfg) (ids : List String) :
    ∀ (m : String → Option RoomAgentM) (bs : List String) (a : RoomAgentM) (rid : String),
      m rid = some a → (ids.foldl (ensureStep cd) (m, bs)).1 rid = some a := by
  induction ids with
  | nil =>
    intro m bs a rid h
    exact h
  | cons x xs ih =>
    intro m bs a rid h
    rw [List.foldl_cons]
    rcases hmx : m x with _ | b
    · rcases hcfg : cd.rooms x with _ | cfg
      · rw [show ensureStep cd (m, bs) x = (m, bs) from by simp [ensureStep, hmx, hcfg]]
        exact ih m bs a rid h
      · rw [show ensureStep cd (m, bs) x
            = (mapUpdate m x ⟨x, cfg⟩, bs ++ cfg.building_id.toList) from by
          simp [ensureStep, hmx, hcfg]]
        apply ih
        rw [mapUpdate]
        by_cases hrx : rid = x
        · subst hrx
          rw [h] at hmx
          cases hmx
        · rw [if_neg hrx]
          exact h
    · rcases hcfg : cd.rooms x with _ | cfg
      · rw [show ensureStep cd (m, bs) x = (m, bs) from by simp [ensureStep, hmx, hcfg]]
        exact ih m bs a rid h
      · rw [show ensureStep cd (m, bs) x = (m, bs ++ cfg.building_id.toList) from by
          simp [ensureStep, hmx, hcfg]]
        exact ih m _ a rid h

theorem ensure_fold_none (cd : CampusCfg) (ids : List String) :
    ∀ (m : String → Option RoomAgentM) (bs : List String) (rid : String),
      m rid = none →
      (ids.foldl (ensureStep cd) (m, bs)).1 rid
        = if rid ∈ ids then (cd.rooms rid).map (fun cfg => ⟨rid, cfg⟩) else none := by
  induction ids with
  | nil =>
    intro m bs rid h
    simpa using h
  | cons x xs ih =>
    intro m bs rid h
    rw [List.foldl_cons]
    by_cases hrx : rid = x
    · subst hrx
      rcases hcfg : cd.rooms rid with _ | cfg
      · rw [show ensureStep cd (m, bs) rid = (m, bs) from by simp [ensureStep, h, hcfg]]
        rw [ih m bs rid h]
        simp [hcfg]
      · rw [show ensureStep cd (m, bs) rid
            = (mapUpdate m rid ⟨rid, cfg⟩, bs ++ cfg.building_id.toList) from by
          simp [ensureStep, h, hcfg]]
        rw [ensure_fold_some cd xs _ _ ⟨rid, cfg⟩ rid (by rw [mapUpdate, if_pos rfl])]
        simp [hcfg]
    · rcases hmx : m x with _ | b
      · rcases hcfg : cd.rooms x with _ | cfg
        · rw [show ensureStep cd (m, bs) x = (m, bs) from by simp [ensureStep, hmx, hcfg]]
          rw [ih m bs rid h]
          simp [List.mem_cons, hrx]
        · rw [show ensureStep cd (m, bs) x
              = (mapUpdate m x ⟨x, cfg⟩, bs ++ cfg.building_id.toList) from by
            simp [ensureStep, hmx, hcfg]]
          rw [ih _ _ rid (by rw [mapUpdate, if_neg hrx]; exact h)]
          simp [List.mem_cons, hrx]
      · rcases hcfg : cd.rooms x with _ | cfg
        · rw [show ensureStep cd (m, bs) x = (m, bs) from by simp [ensureStep, hmx, hcfg]]
          rw [ih m bs rid h]
          simp [List.mem_cons, hrx]
        · rw [show ensureStep cd (m, bs) x = (m, bs ++ cfg.building_id.toList) from by
            simp [ensureStep, hmx, hcfg]]
          rw [ih m _ rid h]
          simp [List.mem_cons, hrx]

theorem ensure_fold_needed (cd : CampusCfg) (ids : List String) :
    ∀ (m : String → Option RoomAgentM) (bs : List String),
      (ids.foldl (ensureStep cd) (m, bs)).2
        = bs ++ ids.flatMap
            (fun rid => ((cd.rooms rid).bind (fun c => c.building_id)).toList) := by
  induction ids with
  | nil =>
    intro m bs
    simp
  | cons x xs ih =>
    intro m bs
    rw [List.foldl_cons, List.flatMap_cons]
    rcases hmx : m x with _ | b <;> rcases hcfg : cd.rooms x with _ | cfg
    · rw [show ensureStep cd (m, bs) x = (m, bs) from by simp [ensureStep, hmx, hcfg]]
      rw [ih]
      simp [hcfg]
    · rw [show ensureStep cd (m, bs) x
          = (mapUpdate m x ⟨x, cfg⟩, bs ++ cfg.building_id.toList) from by
        simp [ensureStep, hmx, hcfg]]
      rw [ih]
      simp [hcfg, List.append_assoc]
    · rw [show ensureStep cd (m, bs) x = (m, bs) from by simp [ensureStep, hmx, hcfg]]
      rw [ih]
      simp [hcfg]
    · rw [show ensureStep cd (m, bs) x = (m, bs ++ cfg.building_id.toList) from by
        simp [ensureStep, hmx, hcfg]]
      rw [ih]
      simp [hcfg, List.append_assoc]

theorem register_fold_none (cd : CampusCfg) (ra : String → Option RoomAgentM)
    (ids : List String) :
    ∀ (bmap : String → Option BuildingAgentM) (bid : String),
      (ids.foldl (registerStep cd ra) bmap) bid = none ↔ bmap bid = none := by
  induction ids with
  | nil =>
    intro bmap bid
    exact Iff.rfl
  | cons x xs ih =>
    intro bmap bid
    rw [List.foldl_cons, ih]
    rcases hra : ra x with _ | a
    · rw [show registerStep cd ra bmap x = bmap from by simp [registerStep, hra]]
    · rcases hcfg : (cd.rooms x).bind (fun c => c.building_id) with _ | bid'
      · rw [show registerStep cd ra bmap x = bmap from by simp [registerStep, hra, hcfg]]
      · rcases hb : bmap bid' with _ | b
        · rw [show registerStep cd ra bmap x = bmap from by
            simp [registerStep, hra, hcfg, hb]]
        · rw [show registerStep cd ra bmap x = mapUpdate bmap bid' (add_room_agent b x a)
              from by simp [registerStep, hra, hcfg, hb]]
          rw [mapUpdate]
          by_cases hbid : bid = bid'
          · subst hbid
            rw [if_pos rfl, hb]
            simp
          · rw [if_neg hbid]

theorem registeredAt_step (cd : CampusCfg) (ra : String → Option RoomAgentM)
    {bmap : String → Option BuildingAgentM} {rid : String}
    (h : RegisteredAt cd ra bmap rid) (rid' : String) :
    RegisteredAt cd ra (registerStep cd ra bmap rid') rid := by
  intro a bid b ha hbid hb
  rcases hra : ra rid' with _ | a'
  · rw [show registerStep cd ra bmap rid' = bmap from by simp [registerStep, hra]] at hb
    exact h a bid b ha hbid hb
  · rcases hcfg : (cd.rooms rid').bind (fun c => c.building_id) with _ | bid'
    · rw [show registerStep cd ra bmap rid' = bmap from by simp [registerStep, hra, hcfg]] at hb
      exact h a bid b ha hbid hb
    · rcases hbm : bmap bid' with _ | b'
      · rw [show registerStep cd ra bmap rid' = bmap from by
          simp [registerStep, hra, hcfg, hbm]] at hb
        exact h a bid b ha hbid hb
      · rw [show registerStep cd ra bmap rid' = mapUpdate bmap bid' (add_room_agent b' rid' a')
            from by simp [registerStep, hra, hcfg, hbm]] at hb
        rw [mapUpdate] at hb
        by_cases hbb : bid = bid'
        · subst hbb
          rw [if_pos rfl] at hb
          injection hb with hb'
          subst hb'
          show mapUpdate b'.room_agents rid' a' rid = some a
          rw [mapUpdate]
          by_cases hrr : rid = rid'
          · subst hrr
            rw [if_pos rfl]
            rw [ha] at hra
            injection hra with h2
            rw [h2]
          · rw [if_neg hrr]
            exact h a bid b' ha hbid hbm
        · rw [if_neg hbb] at hb
          exact h a bid b ha hbid hb

theorem registeredAt_self (cd : CampusCfg) (ra : String → Option RoomAgentM)
    (bmap : String → Option BuildingAgentM) (rid : String) :
    RegisteredAt cd ra (registerStep cd ra bmap rid) rid := by
  intro a bid b ha hbid hb
  rcases hbm : bmap bid with _ | b0
  · rw [show registerStep cd ra bmap rid = bmap from by
      simp [registerStep, ha, hbid, hbm]] at hb
    rw [hbm] at hb
    cases hb
  · rw [show registerStep cd ra bmap rid = mapUpdate bmap bid (add_room_agent b0 rid a)
        from by simp [registerStep, ha, hbid, hbm]] at hb
    rw [mapUpdate, if_pos rfl] at hb
    injection hb with hb'
    subst hb'
    show mapUpdate b0.room_agents rid a rid = some a
    rw [mapUpdate, if_pos rfl]

theorem registeredAt_fold (cd : CampusCfg) (ra : String → Option RoomAgentM)
    (ids : List String) :
    ∀ {bmap : String → Option BuildingAgentM} {rid : String},
      RegisteredAt cd ra bmap rid →
      RegisteredAt cd ra (ids.foldl (registerStep cd ra) bmap) rid := by
  induction ids with
  | nil =>
    intro bmap rid h
    exact h
  | cons x xs ih =>
    intro bmap rid h
    rw [List.foldl_cons]
    exact ih (registeredAt_step cd ra h x)

theorem registeredAt_after_fold (cd : CampusCfg) (ra : String → Option RoomAgentM)
    (ids : List String) :
    ∀ (bmap : String → Option BuildingAgentM) (rid : String), rid ∈ ids →
      RegisteredAt cd ra (ids.foldl (registerStep cd ra) bmap) rid := by
  induction ids with
  | nil =>
    intro bmap rid h
    cases h
  | cons x xs ih =>
    intro bmap rid h
    rw [List.foldl_cons]
    rcases List.mem_cons.mp h with rfl | h'
    · exact registeredAt_fold cd ra xs (registeredAt_self cd ra bmap rid)
    · exact ih _ rid h'

theorem register_fold_id (cd : CampusCfg) (ra : String → Option RoomAgentM)
    (ids : List String) :
    ∀ (bmap : String → Option BuildingAgentM),
      (∀ rid ∈ ids, RegisteredAt cd ra bmap rid) →
      ids.foldl (registerStep cd ra) bmap = bmap := by
  induction ids with
  | nil =>
    intro bmap _
    rfl
  | cons x xs ih =>
    intro bmap h
    rw [List.foldl_cons]
    have hx : registerStep cd ra bmap x = bmap := by
      rcases hra : ra x with _ | a
      · simp [registerStep, hra]
      · rcases hcfg : (cd.rooms x).bind (fun c => c.building_id) with _ | bid
        · simp [registerStep, hra, hcfg]
        · rcases hbm : bmap bid with _ | b
          · simp [registerStep, hra, hcfg, hbm]
          · have hreg : b.room_agents x = some a :=
              h x (List.mem_cons_self x xs) a bid b hra hcfg hbm
            simp [registerStep, hra, hcfg, hbm, add_room_agent_self b x a hreg,
              mapUpdate_eq_self bmap bid b hbm]
    rw [hx]
    exact ih bmap (fun rid hr => h rid (List.mem_cons_of_mem x hr))

/-- C9.  Reconciling the pool twice with the same working set and the same
campus configuration yields exactly the pool of a single reconcile: the
room-agent map, the building-agent map and the per-building room
registrations all coincide; in particular re-registering a kept room agent
to its building (`add_room_agent` with the already-registered agent) is a
no-op (second conjunct). -/
theorem reconcile_idempotent (cd : CampusCfg) (roomIds : List String) (pool : Pool) :
    reconcile cd roomIds (reconcile cd roomIds pool) = reconcile cd roomIds pool
    ∧ ∀ (b : BuildingAgentM) (rid : String) (a : RoomAgentM),
        b.room_agents rid = some a → add_room_agent b rid a = b := by
  have hrooms : ∀ rid, ensuredRooms cd roomIds (reconcile cd roomIds pool) rid
      = ensuredRooms cd roomIds pool rid := by
    intro rid
    by_cases hmem : rid ∈ roomIds
    · have hkept₂ : keptRooms roomIds (reconcile cd roomIds pool) rid
          = ensuredRooms cd roomIds pool rid := by
        rw [keptRooms, if_pos hmem]
        rfl
      rcases h1 : ensuredRooms cd roomIds pool rid with _ | a
      · rw [ensuredRooms,
          ensure_fold_none cd roomIds _ _ rid (by rw [hkept₂]; exact h1), if_pos hmem]
        rcases hk1 : keptRooms roomIds pool rid with _ | a1
        · have hchar := ensure_fold_none cd roomIds (keptRooms roomIds pool) [] rid hk1
          rw [ensuredRooms] at h1
          rw [hchar, if_pos hmem] at h1
          exact h1
        · have hsome := ensure_fold_some cd roomIds (keptRooms roomIds pool) [] a1 rid hk1
          rw [ensuredRooms] at h1
          rw [hsome] at h1
          cases h1
      · rw [ensuredRooms, ensure_fold_some cd roomIds _ _ a rid (by rw [hkept₂]; exact h1)]
    · have hkept₂ : keptRooms roomIds (reconcile cd roomIds pool) rid = none := by
        rw [keptRooms, if_neg hmem]
      have hkept₁ : keptRooms roomIds pool rid = none := by
        rw [keptRooms, if_neg hmem]
      rw [ensuredRooms, ensure_fold_none cd roomIds _ _ rid hkept₂, if_neg hmem]
      rw [ensuredRooms, ensure_fold_none cd roomIds _ _ rid hkept₁, if_neg hmem]
  have hneed : neededBuildings cd roomIds (reconcile cd roomIds pool)
      = neededBuildings cd roomIds pool := by
    rw [neededBuildings, neededBuildings, ensure_fold_needed cd roomIds _ _,
      ensure_fold_needed cd roomIds _ _]
  have hpre : ∀ bid, preBuildings cd roomIds (reconcile cd roomIds pool) bid
      = (reconcile cd roomIds pool).building_agents bid := by
    intro bid
    rw [preBuildings, hneed]
    by_cases hb : bid ∈ neededBuildings cd roomIds pool
    · rw [if_pos hb]
      rcases hP : (reconcile cd roomIds pool).building_agents bid with _ | b
      · have hpre1 : preBuildings cd roomIds pool bid = none :=
          (register_fold_none cd (ensuredRooms cd roomIds pool) roomIds
            (preBuildings cd roomIds pool) bid).mp hP
        rw [preBuildings, if_pos hb] at hpre1
        rcases hpb : pool.building_agents bid with _ | b0
        · rw [hpb] at hpre1
          exact hpre1
        · rw [hpb] at hpre1
          simp at hpre1
      · rfl
    · rw [if_neg hb]
      have hpre1 : preBuildings cd roomIds pool bid = none := by
        rw [preBuildings, if_neg hb]
      exact ((register_fold_none cd (ensuredRooms cd roomIds pool) roomIds
        (preBuildings cd roomIds pool) bid).mpr hpre1).symm
  refine ⟨?_, fun b rid a h => add_room_agent_self b rid a h⟩
  apply pool_ext
  · exact hrooms
  · intro bid
    show (roomIds.foldl
        (registerStep cd (ensuredRooms cd roomIds (reconcile cd roomIds pool)))
        (preBuildings cd roomIds (reconcile cd roomIds pool))) bid
      = (reconcile cd roomIds pool).building_agents bid
    rw [funext hrooms, funext hpre]
    have hreg : ∀ rid ∈ roomIds,
        RegisteredAt cd (ensuredRooms cd roomIds pool)
          (reconcile cd roomIds pool).building_agents rid := by
      intro rid hr
      exact registeredAt_after_fold cd (ensuredRooms cd roomIds pool) roomIds
        (preBuildings cd roomIds pool) rid hr
    rw [register_fold_id cd (ensuredRooms cd roomIds pool) roomIds
      ((reconcile cd roomIds pool).building_agents) hreg]

end EcoAgent
